import Mathlib

/-!
# Snapshot pipeline of the image promoter

A shallow embedding of `pkg/promoter/snapshot.go`: the five methods of
`defaultPromoterImplementation` that build and print a registry snapshot.

* Go's multi-value returns `(value, error)` are kept as they are: a value, an
  optional error and the trace of effects performed, or a run-time panic.
* Go's `nil` is kept for pointers (`Option`), slices (`Slice.nil`) and maps
  (`GoMap.nil`).
* Functions of other packages (`strings`, `dockerregistry`) and the methods of
  the implementation that live in other files are fields of `Deps`.
-/

namespace Promoter

/-! ## Go values -/

/-- Error values built with `github.com/pkg/errors`: `errors.New` / `errors.Errorf`
carry a message, `errors.Wrap` puts a message in front of a cause. -/
inductive Error where
  | New (msg : String)
  | Wrap (cause : Error) (msg : String)
  deriving DecidableEq, Repr

/-- The text `err.Error()` gives. -/
def Error.message : Error → String
  | .New msg => msg
  | .Wrap cause msg => msg ++ ": " ++ cause.message

/-- A Go slice value; `nil` is the nil slice, `mk []` an empty non-nil slice. -/
inductive Slice (α : Type) where
  | nil
  | mk (elems : List α)
  deriving DecidableEq, Repr

/-- The elements of a slice, in order. -/
def Slice.toList {α : Type} : Slice α → List α
  | .nil => []
  | .mk elems => elems

/-- Go's `len(s)`. -/
def Slice.len {α : Type} (s : Slice α) : Nat := s.toList.length

/-- Go's `s[i]`; `none` is the index-out-of-range panic. -/
def Slice.index {α : Type} (s : Slice α) (i : Nat) : Option α := s.toList.get? i

/-- Go's `append(s, x)`. -/
def Slice.append {α : Type} (s : Slice α) (x : α) : Slice α := .mk (s.toList ++ [x])

/-- A Go map value; `nil` is the nil map. The first entry for a key is the
binding of that key. -/
inductive GoMap (κ ν : Type) where
  | nil
  | mk (entries : List (κ × ν))
  deriving DecidableEq, Repr

/-- The binding of a key, when there is one. -/
def GoMap.find? {κ ν : Type} [DecidableEq κ] : GoMap κ ν → κ → Option ν
  | .nil, _ => none
  | .mk entries, k => (entries.find? (fun kv => decide (kv.1 = k))).map Prod.snd

/-! ## Data model -/

abbrev RegistryName := String
abbrev ImageName := String
abbrev Digest := String
abbrev Tag := String

/-- Modelled from the spec: `reg.RegistryContext` (declared in the
`dockerregistry` package), with the three attributes the spec lists. -/
structure RegistryContext where
  Name : RegistryName
  ServiceAccount : String
  Src : Bool
  deriving DecidableEq, Repr

/-- Modelled from the spec: the digest/tag associations of one image. -/
abbrev DigestTags := GoMap Digest (Slice Tag)

/-- Modelled from the spec: `reg.Image`, a name plus its digest/tag associations. -/
structure Image where
  Name : ImageName
  Dmap : DigestTags
  deriving DecidableEq, Repr

/-- Modelled from the spec: `reg.Manifest`, a collection of registry contexts
plus a list of images. -/
structure Manifest where
  Registries : Slice RegistryContext
  Images : Slice Image
  deriving DecidableEq, Repr

/-- Modelled from the spec: `reg.RegInvImage`, a mapping from image name to its
(digest, tags) pairs. -/
abbrev RegInvImage := GoMap ImageName DigestTags

/-- Modelled from the spec: `Options` (declared in another file of the
`promoter` package), with the fields `snapshot.go` reads. -/
structure Options where
  OutputFormat : String
  Snapshot : String
  ManifestBasedSnapshotOf : String
  Manifest : String
  SnapshotTag : String
  MinimalSnapshot : Bool
  SnapshotSvcAcct : String
  deriving DecidableEq, Repr

/-- Modelled from the spec: `reg.SyncContext`. `Inv` is the field the snapshot
code reads (registry name to inventory); `rest` stands for every other field. -/
structure SyncContext (σ : Type) where
  Inv : GoMap RegistryName RegInvImage
  rest : σ

/-- Go's `m[k]` on the master inventory: the zero value (a nil map) when the key
is absent. -/
def lookupInv (inv : GoMap RegistryName RegInvImage) (k : RegistryName) : RegInvImage :=
  (inv.find? k).getD .nil

/-- The two command builders `snapshot.go` hands to the registry reader. -/
inductive StreamProducerMaker where
  | MkReadRepositoryCmdReal
  | MkReadManifestListCmdReal
  deriving DecidableEq, Repr

/-! ## Effects and outcomes -/

/-- The observable effects of the snapshot code, in the order performed. -/
inductive Event where
  | Println (s : String)
  | LogInfo (msg : String)
  | ParseManifestFromFile (path : String)
  | MakeSyncContext
  | ReadRegistries (toRead : Slice RegistryContext) (recurse : Bool) (cmd : StreamProducerMaker)
  | ReadGCRManifestLists (cmd : StreamProducerMaker)
  deriving DecidableEq, Repr

/-- The outcome of a call: it returned `(val, err)` or it panicked. -/
inductive Exec (α : Type) where
  | returned (val : α) (err : Option Error) (trace : List Event)
  | panicked (trace : List Event)
  deriving DecidableEq, Repr

/-- The call returned a non-nil error. -/
def Exec.failed {α : Type} : Exec α → Bool
  | .returned _ (some _) _ => true
  | _ => false

/-- The call returned a nil error. -/
def Exec.succeeded {α : Type} : Exec α → Bool
  | .returned _ none _ => true
  | _ => false

/-- The effects the call performed. -/
def Exec.trace {α : Type} : Exec α → List Event
  | .returned _ _ trace => trace
  | .panicked trace => trace

/-- The value the call returned, when it returned. -/
def Exec.val? {α : Type} : Exec α → Option α
  | .returned val _ _ => some val
  | .panicked _ => none

/-- The strings handed to `fmt.Println`, in order. -/
def printed : List Event → List String
  | [] => []
  | .Println s :: rest => s :: printed rest
  | _ :: rest => printed rest

/-- The bytes on standard output: `fmt.Println` writes its operand and a newline. -/
def stdout (trace : List Event) : String :=
  String.join ((printed trace).map (fun s => s ++ "\n"))

/-- The event is a read of a registry (repositories or manifest lists). -/
def Event.isRegistryRead : Event → Bool
  | .ReadRegistries _ _ _ => true
  | .ReadGCRManifestLists _ => true
  | _ => false

/-- The event is a call of the manifest parser. -/
def Event.isParse : Event → Bool
  | .ParseManifestFromFile _ => true
  | _ => false

/-! ## Collaborators -/

/-- What `snapshot.go` calls and does not define. `E` is the type of the edge set
`reg.ToPromotionEdges` returns, `σ` the state of a sync context besides `Inv`.
`ToYAML` is `ToYAML` at the zero-valued `reg.YamlMarshalingOpts`. -/
structure Deps (E σ : Type) where
  ToLower : String → String
  ToCSV : RegInvImage → String
  ToYAML : RegInvImage → String
  ParseManifestFromFile : String → Manifest × Option Error
  MakeSyncContext : Options → Slice Manifest → Option (SyncContext σ) × Option Error
  ToPromotionEdges : Slice Manifest → E × Option Error
  EdgesToRegInvImage : E → String → RegInvImage
  FilterByTag : RegInvImage → String → RegInvImage
  ReadRegistries : SyncContext σ → Slice RegistryContext → Bool → StreamProducerMaker → SyncContext σ
  ReadGCRManifestLists : SyncContext σ → StreamProducerMaker → SyncContext σ
  RemoveChildDigestEntries : SyncContext σ → RegInvImage → RegInvImage

/-! ## The methods of `snapshot.go` -/

/-- Method `Snapshot`: render the inventory in the requested format and print it. -/
def Snapshot {E σ : Type} (d : Deps E σ) (opts : Options) (rii : RegInvImage) : Exec Unit :=
  let lower := d.ToLower opts.OutputFormat
  let rendered : Option String :=
    if lower = "csv" then some (d.ToCSV rii)
    else if lower = "yaml" then some (d.ToYAML rii)
    else none
  match rendered with
  | none =>
    .returned () (some (.New ("invalid snapshot output format: " ++ opts.OutputFormat))) []
  | some snapshot => .returned () none [.Println snapshot]

/-- Method `GetSnapshotSourceRegistry`: the source registry context of a snapshot. -/
def GetSnapshotSourceRegistry (opts : Options) : Exec (Option RegistryContext) :=
  let srcRegistry : RegistryContext :=
    { Name := "", ServiceAccount := opts.SnapshotSvcAcct, Src := true }
  if opts.Snapshot ≠ "" then
    .returned (some { srcRegistry with Name := opts.Snapshot }) none []
  else if opts.ManifestBasedSnapshotOf = "" then
    .returned (some { srcRegistry with Name := opts.ManifestBasedSnapshotOf }) none []
  else
    .returned none
      (some (.New "when snapshotting, Snapshot or ManifestBasedSnapshotOf have to be set")) []

/-- Method `GetSnapshotManifests`: the manifest list of the snapshot source. -/
def GetSnapshotManifests (opts : Options) : Exec (Slice Manifest) :=
  match GetSnapshotSourceRegistry opts with
  | .panicked trace => .panicked trace
  | .returned _ (some err) trace =>
    .returned .nil (some (.Wrap err "building source registry for snapshot")) trace
  | .returned none none trace => .panicked trace
  | .returned (some srcRegistry) none trace =>
    .returned (.mk [{ Registries := .mk [srcRegistry], Images := .mk [] }]) none trace

/-- Method `AppendManifestToSnapshot`: append the manifest named in the options,
when one is named. -/
def AppendManifestToSnapshot {E σ : Type} (d : Deps E σ) (opts : Options)
    (mfests : Slice Manifest) : Exec (Slice Manifest) :=
  if opts.Manifest = "" then
    .returned mfests none [.LogInfo "No manifest defined, not appending to snapshot"]
  else
    match d.ParseManifestFromFile opts.Manifest with
    | (_, some err) =>
      .returned .nil (some (.Wrap err "parsing specified manifest"))
        [.ParseManifestFromFile opts.Manifest]
    | (mfest, none) =>
      .returned (mfests.append mfest) none [.ParseManifestFromFile opts.Manifest]

/-- Method `GetRegistryImageInventory`: the inventory of the snapshot, from the
manifests' promotion edges or from a read of the registry. Dereferencing a nil
sync context or a nil source registry, and indexing past the end of a slice,
panic. -/
def GetRegistryImageInventory {E σ : Type} (d : Deps E σ) (opts : Options)
    (mfests : Slice Manifest) : Exec RegInvImage :=
  let t0 : List Event := [.MakeSyncContext]
  match d.MakeSyncContext opts mfests with
  | (_, some err) =>
    .returned .nil (some (.Wrap err "making sync context for registry inventory")) t0
  | (sc, none) =>
    match GetSnapshotSourceRegistry opts with
    | .panicked trace => .panicked (t0 ++ trace)
    | .returned _ (some err) trace =>
      .returned .nil (some (.Wrap err "creting source registry for image inventory"))
        (t0 ++ trace)
    | .returned srcRegistry none trace =>
      let t1 := t0 ++ trace
      if opts.ManifestBasedSnapshotOf.utf8ByteSize > 0 then
        match d.ToPromotionEdges mfests with
        | (_, some err) =>
          .returned .nil
            (some (.Wrap err "converting list of manifests to edges for promotion")) t1
        | (promotionEdges, none) =>
          let rii := d.EdgesToRegInvImage promotionEdges opts.ManifestBasedSnapshotOf
          if opts.MinimalSnapshot then
            match sc, srcRegistry with
            | some sc0, some src =>
              let sc1 := d.ReadRegistries sc0 (.mk [src]) true .MkReadRepositoryCmdReal
              let sc2 := d.ReadGCRManifestLists sc1 .MkReadManifestListCmdReal
              .returned (d.RemoveChildDigestEntries sc2 rii) none
                (t1 ++ [.ReadRegistries (.mk [src]) true .MkReadRepositoryCmdReal,
                        .ReadGCRManifestLists .MkReadManifestListCmdReal])
            | _, _ => .panicked t1
          else
            .returned rii none t1
      else
        match sc, srcRegistry with
        | some sc0, some src =>
          let sc1 := d.ReadRegistries sc0 (.mk [src]) true .MkReadRepositoryCmdReal
          let t2 := t1 ++ [.ReadRegistries (.mk [src]) true .MkReadRepositoryCmdReal]
          match mfests.index 0 with
          | none => .panicked t2
          | some m0 =>
            match m0.Registries.index 0 with
            | none => .panicked t2
            | some r0 =>
              let rii := lookupInv sc1.Inv r0.Name
              let rii := if opts.SnapshotTag ≠ "" then d.FilterByTag rii opts.SnapshotTag else rii
              if opts.MinimalSnapshot then
                let sc2 := d.ReadGCRManifestLists sc1 .MkReadManifestListCmdReal
                .returned (d.RemoveChildDigestEntries sc2 rii) none
                  (t2 ++ [.LogInfo "removing tagless child digests of manifest lists",
                          .ReadGCRManifestLists .MkReadManifestListCmdReal])
              else
                .returned rii none t2
        | _, _ => .panicked t1

/-! ## Concrete collaborators, for evaluating the methods -/

/-- A registry whose every named repository holds one image `img` with digest
`sha256:d1` tagged `v1`. -/
def demoInventory : RegInvImage :=
  .mk [("img", .mk [("sha256:d1", .mk ["v1"])])]

/-- A manifest as a parser could return it. -/
def demoManifest : Manifest :=
  { Registries := .mk [{ Name := "gcr.io/foo", ServiceAccount := "sa@foo", Src := true }],
    Images := .mk [{ Name := "img", Dmap := .mk [("sha256:d1", .mk ["v1"])] }] }

/-- Collaborators that succeed, except that the parser knows only `m.yaml`, the
sync context cannot be made for the service account `bad`, and a nil manifest
list has no promotion edges. -/
def demoDeps : Deps (List ImageName) Unit where
  ToLower := fun s => String.mk (s.data.map Char.toLower)
  ToCSV := fun rii =>
    match rii with
    | .nil => ""
    | .mk entries => String.intercalate "," (entries.map Prod.fst)
  ToYAML := fun rii =>
    match rii with
    | .nil => ""
    | .mk entries => String.join (entries.map (fun kv => "- name: " ++ kv.1))
  ParseManifestFromFile := fun path =>
    if path = "m.yaml" then (demoManifest, none)
    else ({ Registries := .nil, Images := .nil }, some (.New "no such file"))
  MakeSyncContext := fun opts _ =>
    if opts.SnapshotSvcAcct = "bad" then (none, some (.New "no token"))
    else (some { Inv := .mk [], rest := () }, none)
  ToPromotionEdges := fun mfests =>
    match mfests with
    | .nil => ([], some (.New "no manifests"))
    | .mk ms => ((ms.map (fun m => m.Images.toList.map (fun i => i.Name))).flatten, none)
  EdgesToRegInvImage := fun edges _ => .mk (edges.map (fun n => (n, GoMap.nil)))
  FilterByTag := fun rii tag =>
    match rii with
    | .nil => .nil
    | .mk entries => .mk (entries.map (fun kv => (kv.1, GoMap.mk [(tag, Slice.nil)])))
  ReadRegistries := fun sc toRead _ _ =>
    { sc with Inv := .mk (toRead.toList.map (fun rc => (rc.Name, demoInventory))) }
  ReadGCRManifestLists := fun sc _ => sc
  RemoveChildDigestEntries := fun _ rii => rii

/-- Options of a direct snapshot of `gcr.io/foo`, printed as CSV. -/
def demoOpts : Options :=
  { OutputFormat := "CSV", Snapshot := "gcr.io/foo", ManifestBasedSnapshotOf := "",
    Manifest := "", SnapshotTag := "", MinimalSnapshot := false, SnapshotSvcAcct := "sa@foo" }

/-! ## Lemmas on Go values -/

/-- Go's `len(s) > 0` on a string says the string is not empty. -/
theorem utf8ByteSize_pos_iff (s : String) : s.utf8ByteSize > 0 ↔ s ≠ "" := by
  rcases s with ⟨cs⟩
  cases cs with
  | nil => simp [String.utf8ByteSize, String.utf8ByteSize.go]
  | cons c cs =>
    have hc := Char.utf8Size_pos c
    have hne : (String.mk (c :: cs)) ≠ "" := by
      intro h
      have := congrArg String.data h
      simp at this
    simp only [String.utf8ByteSize, String.utf8ByteSize.go, gt_iff_lt, ne_eq, hne,
      not_false_eq_true, iff_true]
    omega

/-- Options of a manifest-based snapshot of `gcr.io/foo` with no direct source. -/
def manifestBasedOpts : Options :=
  { OutputFormat := "yaml", Snapshot := "", ManifestBasedSnapshotOf := "gcr.io/foo",
    Manifest := "", SnapshotTag := "", MinimalSnapshot := false, SnapshotSvcAcct := "sa@foo" }

/-! ## `GetSnapshotSourceRegistry` -/

/-- C1, the code at the failing input: with `Snapshot` and
`ManifestBasedSnapshotOf` both empty, whatever the other fields are,
`GetSnapshotSourceRegistry` returns a registry context whose name is the empty
string and a nil error, where the claim has it return an error and no context. -/
theorem GetSnapshotSourceRegistry_both_empty_returns_context
    (fmt manifest tag svc : String) (minimal : Bool) :
    GetSnapshotSourceRegistry
        { OutputFormat := fmt, Snapshot := "", ManifestBasedSnapshotOf := "",
          Manifest := manifest, SnapshotTag := tag, MinimalSnapshot := minimal,
          SnapshotSvcAcct := svc }
      = .returned (some { Name := "", ServiceAccount := svc, Src := true }) none [] := by
  rfl

/-- C2, the code at the failing input: with `Snapshot` empty and
`ManifestBasedSnapshotOf` set to `gcr.io/foo`, whatever the other fields are,
`GetSnapshotSourceRegistry` returns a nil context and the error "Snapshot or
ManifestBasedSnapshotOf have to be set", where the claim has it succeed with a
context named `gcr.io/foo`. -/
theorem GetSnapshotSourceRegistry_manifest_based_only_fails
    (fmt manifest tag svc : String) (minimal : Bool) :
    GetSnapshotSourceRegistry
        { OutputFormat := fmt, Snapshot := "", ManifestBasedSnapshotOf := "gcr.io/foo",
          Manifest := manifest, SnapshotTag := tag, MinimalSnapshot := minimal,
          SnapshotSvcAcct := svc }
      = .returned none
          (some (.New "when snapshotting, Snapshot or ManifestBasedSnapshotOf have to be set"))
          [] := by
  rfl

/-- C8: when `Snapshot` is not empty, whatever `ManifestBasedSnapshotOf` is,
`GetSnapshotSourceRegistry` returns a nil error and a registry context whose
`Name` is `Snapshot`, whose `Src` is true and whose `ServiceAccount` is
`SnapshotSvcAcct`; it performs no effect. -/
theorem GetSnapshotSourceRegistry_snapshot_set (opts : Options)
    (h : opts.Snapshot ≠ "") :
    ∃ rc : RegistryContext,
      GetSnapshotSourceRegistry opts = .returned (some rc) none [] ∧
      rc.Name = opts.Snapshot ∧ rc.Src = true ∧
      rc.ServiceAccount = opts.SnapshotSvcAcct := by
  refine ⟨{ Name := opts.Snapshot, ServiceAccount := opts.SnapshotSvcAcct, Src := true },
    ?_, rfl, rfl, rfl⟩
  simp [GetSnapshotSourceRegistry, h]

/-- C8 at `demoOpts` (direct source `gcr.io/foo`) and at options that set both
source names. -/
theorem GetSnapshotSourceRegistry_snapshot_set_witness :
    (∃ rc : RegistryContext,
      GetSnapshotSourceRegistry demoOpts = .returned (some rc) none [] ∧
      rc.Name = "gcr.io/foo" ∧ rc.Src = true ∧ rc.ServiceAccount = "sa@foo") ∧
    (∃ rc : RegistryContext,
      GetSnapshotSourceRegistry { manifestBasedOpts with Snapshot := "gcr.io/bar" }
        = .returned (some rc) none [] ∧
      rc.Name = "gcr.io/bar" ∧ rc.Src = true ∧ rc.ServiceAccount = "sa@foo") :=
  ⟨GetSnapshotSourceRegistry_snapshot_set demoOpts (by decide),
   GetSnapshotSourceRegistry_snapshot_set
     { manifestBasedOpts with Snapshot := "gcr.io/bar" } (by decide)⟩

/-! ## `GetSnapshotManifests` -/

/-- C7: `GetSnapshotManifests` returns an error exactly when
`GetSnapshotSourceRegistry` does on the same options, it never panics, and when
it succeeds it returns a list of exactly one manifest, whose `Registries` is the
one-element list holding the context `GetSnapshotSourceRegistry` returned and
whose `Images` is an empty list. -/
theorem GetSnapshotManifests_wraps_source_registry (opts : Options) :
    ((GetSnapshotManifests opts).failed = (GetSnapshotSourceRegistry opts).failed) ∧
    ((GetSnapshotManifests opts).succeeded = !(GetSnapshotManifests opts).failed) ∧
    ((GetSnapshotManifests opts).succeeded = true →
      ∃ rc : RegistryContext,
        GetSnapshotSourceRegistry opts = .returned (some rc) none [] ∧
        GetSnapshotManifests opts
          = .returned (.mk [{ Registries := .mk [rc], Images := .mk [] }]) none []) := by
  unfold GetSnapshotManifests GetSnapshotSourceRegistry
  by_cases h1 : opts.Snapshot = ""
  · by_cases h2 : opts.ManifestBasedSnapshotOf = ""
    · simp [h1, h2, Exec.failed, Exec.succeeded]
    · simp [h1, h2, Exec.failed, Exec.succeeded]
  · simp [h1, Exec.failed, Exec.succeeded]

/-- C7 at `demoOpts` (it succeeds with the one synthetic manifest) and at
`manifestBasedOpts` (both calls fail). -/
theorem GetSnapshotManifests_wraps_source_registry_witness :
    GetSnapshotManifests demoOpts
      = .returned (.mk [{ Registries := .mk [{ Name := "gcr.io/foo",
                                               ServiceAccount := "sa@foo", Src := true }],
                          Images := .mk [] }]) none [] ∧
    (GetSnapshotManifests manifestBasedOpts).failed = true ∧
    (GetSnapshotSourceRegistry manifestBasedOpts).failed = true := by
  obtain ⟨rc, h1, h2⟩ := (GetSnapshotManifests_wraps_source_registry demoOpts).2.2 (by decide)
  have h3 := (GetSnapshotManifests_wraps_source_registry manifestBasedOpts).1
  refine ⟨?_, ?_, by decide⟩
  · have hrc : rc = { Name := "gcr.io/foo", ServiceAccount := "sa@foo", Src := true } := by
      have h4 : GetSnapshotSourceRegistry demoOpts
          = .returned (some { Name := "gcr.io/foo", ServiceAccount := "sa@foo", Src := true })
              none [] := by decide
      rw [h4] at h1
      injection h1 with h5 _ _
      injection h5 with h6
      exact h6.symm
    rw [h2, hrc]
  · rw [h3]; decide

/-! ## `AppendManifestToSnapshot` -/

/-- C5: when the `Manifest` path is empty, `AppendManifestToSnapshot` returns a
nil error and the very list it was given, whatever the collaborators are, and
no event of its trace is a call of the manifest parser. -/
theorem AppendManifestToSnapshot_no_manifest {E σ : Type} (d : Deps E σ)
    (opts : Options) (mfests : Slice Manifest) (h : opts.Manifest = "") :
    ∃ trace : List Event,
      AppendManifestToSnapshot d opts mfests = .returned mfests none trace ∧
      ∀ ev ∈ trace, ev.isParse = false := by
  refine ⟨[.LogInfo "No manifest defined, not appending to snapshot"], ?_, ?_⟩
  · simp [AppendManifestToSnapshot, h]
  · intro ev hev
    simp at hev
    subst hev
    rfl

/-- C5 at `demoOpts` (no manifest path) and a one-manifest list. -/
theorem AppendManifestToSnapshot_no_manifest_witness :
    ∃ trace : List Event,
      AppendManifestToSnapshot demoDeps demoOpts (.mk [demoManifest])
        = .returned (.mk [demoManifest]) none trace ∧
      ∀ ev ∈ trace, ev.isParse = false :=
  AppendManifestToSnapshot_no_manifest demoDeps demoOpts (.mk [demoManifest]) (by decide)

/-- C6: when the `Manifest` path is not empty: if the parser returns manifest `m`
and a nil error, `AppendManifestToSnapshot` returns a nil error and the list
`mfests` followed by `m` (one longer, every earlier index unchanged, `m` last);
if the parser returns an error, it returns that error wrapped and the nil list. -/
theorem AppendManifestToSnapshot_with_manifest {E σ : Type} (d : Deps E σ)
    (opts : Options) (mfests : Slice Manifest) (h : opts.Manifest ≠ "") :
    (∀ m : Manifest, d.ParseManifestFromFile opts.Manifest = (m, none) →
      ∃ (out : Slice Manifest) (trace : List Event),
        AppendManifestToSnapshot d opts mfests = .returned out none trace ∧
        out.toList = mfests.toList ++ [m] ∧
        out.len = mfests.len + 1 ∧
        (∀ i, i < mfests.len → out.index i = mfests.index i) ∧
        out.index mfests.len = some m) ∧
    (∀ (m : Manifest) (e : Error), d.ParseManifestFromFile opts.Manifest = (m, some e) →
      ∃ trace : List Event,
        AppendManifestToSnapshot d opts mfests
          = .returned .nil (some (.Wrap e "parsing specified manifest")) trace) := by
  constructor
  · intro m hm
    refine ⟨mfests.append m, [.ParseManifestFromFile opts.Manifest], ?_, rfl, ?_, ?_, ?_⟩
    · simp [AppendManifestToSnapshot, h, hm]
    · simp [Slice.len, Slice.append, Slice.toList]
    · intro i hi
      simp only [Slice.len] at hi
      simp only [Slice.index, Slice.append, List.get?_eq_getElem?]
      exact List.getElem?_append_left hi
    · simp [Slice.index, Slice.append, Slice.len, Slice.toList]
  · intro m e hm
    exact ⟨[.ParseManifestFromFile opts.Manifest], by simp [AppendManifestToSnapshot, h, hm]⟩

/-- C6 at the path `m.yaml`, which the demo parser reads as `demoManifest`, and
at the path `x.yaml`, which it cannot read. -/
theorem AppendManifestToSnapshot_with_manifest_witness :
    (∃ (out : Slice Manifest) (trace : List Event),
        AppendManifestToSnapshot demoDeps { demoOpts with Manifest := "m.yaml" }
            (.mk [{ Registries := .nil, Images := .nil }])
          = .returned out none trace ∧
        out.toList = [{ Registries := .nil, Images := .nil }] ++ [demoManifest] ∧
        out.len = 1 + 1 ∧
        (∀ i, i < 1 → out.index i
            = (Slice.mk [({ Registries := .nil, Images := .nil } : Manifest)]).index i) ∧
        out.index 1 = some demoManifest) ∧
    (∃ trace : List Event,
        AppendManifestToSnapshot demoDeps { demoOpts with Manifest := "x.yaml" } .nil
          = .returned .nil
              (some (.Wrap (.New "no such file") "parsing specified manifest")) trace) :=
  ⟨(AppendManifestToSnapshot_with_manifest demoDeps { demoOpts with Manifest := "m.yaml" }
      (.mk [{ Registries := .nil, Images := .nil }]) (by decide)).1 demoManifest (by decide),
   (AppendManifestToSnapshot_with_manifest demoDeps { demoOpts with Manifest := "x.yaml" }
      .nil (by decide)).2 { Registries := .nil, Images := .nil } (.New "no such file")
      (by decide)⟩

/-! ## `Snapshot` -/

/-- C4: `Snapshot` returns an error exactly when the lower-cased `OutputFormat` is
neither `csv` nor `yaml`, and it returns a nil error otherwise; when it returns
an error nothing was handed to `fmt.Println`; for `csv` exactly the `ToCSV`
rendering was printed and for `yaml` exactly the `ToYAML` rendering. -/
theorem Snapshot_error_iff_unsupported_format {E σ : Type} (d : Deps E σ)
    (opts : Options) (rii : RegInvImage) :
    ((Snapshot d opts rii).failed = true ↔
      (d.ToLower opts.OutputFormat ≠ "csv" ∧ d.ToLower opts.OutputFormat ≠ "yaml")) ∧
    ((Snapshot d opts rii).succeeded = !(Snapshot d opts rii).failed) ∧
    ((Snapshot d opts rii).failed = true →
      printed (Snapshot d opts rii).trace = [] ∧ stdout (Snapshot d opts rii).trace = "") ∧
    (d.ToLower opts.OutputFormat = "csv" →
      (Snapshot d opts rii).succeeded = true ∧
      printed (Snapshot d opts rii).trace = [d.ToCSV rii]) ∧
    (d.ToLower opts.OutputFormat = "yaml" →
      (Snapshot d opts rii).succeeded = true ∧
      printed (Snapshot d opts rii).trace = [d.ToYAML rii]) := by
  unfold Snapshot
  by_cases h1 : d.ToLower opts.OutputFormat = "csv"
  · have h2 : ¬ ("csv" = "yaml") := by decide
    simp [h1, h2, Exec.failed, Exec.succeeded, Exec.trace, printed]
  · by_cases h2 : d.ToLower opts.OutputFormat = "yaml"
    · simp [h1, h2, Exec.failed, Exec.succeeded, Exec.trace, printed]
    · simp [h1, h2, Exec.failed, Exec.succeeded, Exec.trace, printed, stdout, String.join]

/-- C4 at the formats `CSV` (printed as CSV), `Yaml` (printed as YAML) and `json`
(an error, nothing printed). -/
theorem Snapshot_error_iff_unsupported_format_witness :
    ((Snapshot demoDeps demoOpts demoInventory).succeeded = true ∧
      printed (Snapshot demoDeps demoOpts demoInventory).trace = ["img"]) ∧
    ((Snapshot demoDeps { demoOpts with OutputFormat := "Yaml" } demoInventory).succeeded = true ∧
      printed (Snapshot demoDeps { demoOpts with OutputFormat := "Yaml" } demoInventory).trace
        = ["- name: img"]) ∧
    ((Snapshot demoDeps { demoOpts with OutputFormat := "json" } demoInventory).failed = true ∧
      printed (Snapshot demoDeps { demoOpts with OutputFormat := "json" } demoInventory).trace
        = []) := by
  have hcsv := (Snapshot_error_iff_unsupported_format demoDeps demoOpts demoInventory).2.2.2.1
    (by decide)
  have hyaml := (Snapshot_error_iff_unsupported_format demoDeps
    { demoOpts with OutputFormat := "Yaml" } demoInventory).2.2.2.2 (by decide)
  have hjson := Snapshot_error_iff_unsupported_format demoDeps
    { demoOpts with OutputFormat := "json" } demoInventory
  have hf := hjson.1.2 (by decide)
  exact ⟨hcsv, hyaml, hf, (hjson.2.2.1 hf).1⟩

/-! ## `GetRegistryImageInventory` -/

/-- C3, the code at the failing input: at the options `manifestBasedOpts`
(`Snapshot` empty, `ManifestBasedSnapshotOf` set to `gcr.io/foo`,
`MinimalSnapshot` false) `GetRegistryImageInventory` returns an error and a nil
inventory for every collaborator set and manifest list; with the demo
collaborators, whose sync-context creation and `ToPromotionEdges` both succeed,
the error is the wrapped error of `GetSnapshotSourceRegistry`, where the claim
has the call return `EdgesToRegInvImage` of the edges and a nil error. -/
theorem GetRegistryImageInventory_manifest_based_only_fails :
    (∀ (E σ : Type) (d : Deps E σ) (mfests : Slice Manifest),
      (GetRegistryImageInventory d manifestBasedOpts mfests).failed = true ∧
      (GetRegistryImageInventory d manifestBasedOpts mfests).val? = some .nil) ∧
    (demoDeps.MakeSyncContext manifestBasedOpts (.mk [demoManifest])).2 = none ∧
    demoDeps.ToPromotionEdges (.mk [demoManifest]) = (["img"], none) ∧
    GetRegistryImageInventory demoDeps manifestBasedOpts (.mk [demoManifest])
      = .returned .nil
          (some (.Wrap
            (.New "when snapshotting, Snapshot or ManifestBasedSnapshotOf have to be set")
            "creting source registry for image inventory"))
          [.MakeSyncContext] := by
  refine ⟨?_, by decide, by decide, by decide⟩
  intro E σ d mfests
  have hsrc : GetSnapshotSourceRegistry manifestBasedOpts
      = .returned none
          (some (.New "when snapshotting, Snapshot or ManifestBasedSnapshotOf have to be set"))
          [] := by decide
  unfold GetRegistryImageInventory
  rcases hsc : d.MakeSyncContext manifestBasedOpts mfests with ⟨sc, _ | e⟩
  · simp [hsrc, Exec.failed, Exec.val?]
  · simp [Exec.failed, Exec.val?]

/-- C9: on the direct path (`ManifestBasedSnapshotOf` empty) without
`MinimalSnapshot`, when sync-context creation succeeds with `sc` and the first
manifest `m0` has a first registry context `r0`, `GetRegistryImageInventory`
returns a nil error; with `inv` the inventory that the sync context holds under
the name of `r0` after the recursive read of the source registry, the result is
`inv` when `SnapshotTag` is empty and `FilterByTag inv SnapshotTag` otherwise. -/
theorem GetRegistryImageInventory_direct_path {E σ : Type} (d : Deps E σ)
    (opts : Options) (mfests : Slice Manifest) (sc : SyncContext σ)
    (m0 : Manifest) (r0 : RegistryContext)
    (hmb : opts.ManifestBasedSnapshotOf = "")
    (hmin : opts.MinimalSnapshot = false)
    (hsc : d.MakeSyncContext opts mfests = (some sc, none))
    (hm0 : mfests.index 0 = some m0)
    (hr0 : m0.Registries.index 0 = some r0) :
    ∃ trace : List Event,
      GetRegistryImageInventory d opts mfests
        = .returned
            (if opts.SnapshotTag = "" then
              lookupInv (d.ReadRegistries sc
                (.mk [{ Name := opts.Snapshot, ServiceAccount := opts.SnapshotSvcAcct,
                        Src := true }])
                true .MkReadRepositoryCmdReal).Inv r0.Name
            else
              d.FilterByTag
                (lookupInv (d.ReadRegistries sc
                  (.mk [{ Name := opts.Snapshot, ServiceAccount := opts.SnapshotSvcAcct,
                          Src := true }])
                  true .MkReadRepositoryCmdReal).Inv r0.Name)
                opts.SnapshotTag)
            none trace := by
  have hlen : ¬ (opts.ManifestBasedSnapshotOf.utf8ByteSize > 0) := by
    rw [utf8ByteSize_pos_iff]; simp [hmb]
  have hsrc : GetSnapshotSourceRegistry opts
      = .returned (some { Name := opts.Snapshot, ServiceAccount := opts.SnapshotSvcAcct,
                          Src := true }) none [] := by
    unfold GetSnapshotSourceRegistry
    by_cases h1 : opts.Snapshot = ""
    · simp [h1, hmb]
    · simp [h1]
  refine ⟨[.MakeSyncContext,
    .ReadRegistries (.mk [{ Name := opts.Snapshot, ServiceAccount := opts.SnapshotSvcAcct,
                            Src := true }]) true .MkReadRepositoryCmdReal], ?_⟩
  unfold GetRegistryImageInventory
  simp only [hsc, hsrc, hlen, hm0, hr0, hmin]
  by_cases ht : opts.SnapshotTag = ""
  · simp [ht]
  · simp [ht]

/-- C9 at `demoOpts` with no tag filter and with the tag filter `v1`. -/
theorem GetRegistryImageInventory_direct_path_witness :
    (∃ trace : List Event,
      GetRegistryImageInventory demoDeps demoOpts (.mk [demoManifest])
        = .returned demoInventory none trace) ∧
    (∃ trace : List Event,
      GetRegistryImageInventory demoDeps { demoOpts with SnapshotTag := "v1" }
          (.mk [demoManifest])
        = .returned (.mk [("img", .mk [("v1", .nil)])]) none trace) := by
  constructor
  · obtain ⟨trace, h⟩ := GetRegistryImageInventory_direct_path demoDeps demoOpts
      (.mk [demoManifest]) { Inv := .mk [], rest := () } demoManifest
      { Name := "gcr.io/foo", ServiceAccount := "sa@foo", Src := true }
      (by decide) (by decide) rfl (by decide) (by decide)
    exact ⟨trace, h.trans rfl⟩
  · obtain ⟨trace, h⟩ := GetRegistryImageInventory_direct_path demoDeps
      { demoOpts with SnapshotTag := "v1" }
      (.mk [demoManifest]) { Inv := .mk [], rest := () } demoManifest
      { Name := "gcr.io/foo", ServiceAccount := "sa@foo", Src := true }
      (by decide) (by decide) rfl (by decide) (by decide)
    exact ⟨trace, h.trans rfl⟩

/-- C10: `GetRegistryImageInventory` returns no partial inventory: whenever it
returns an error the inventory it returns is nil; and it returns an error
whenever sync-context creation returns an error, whenever
`GetSnapshotSourceRegistry` returns an error, and whenever
`ManifestBasedSnapshotOf` is not empty and `ToPromotionEdges` returns an error. -/
theorem GetRegistryImageInventory_no_partial_inventory {E σ : Type} (d : Deps E σ)
    (opts : Options) (mfests : Slice Manifest) :
    (∀ (v : RegInvImage) (e : Error) (trace : List Event),
      GetRegistryImageInventory d opts mfests = .returned v (some e) trace → v = .nil) ∧
    ((d.MakeSyncContext opts mfests).2 ≠ none →
      (GetRegistryImageInventory d opts mfests).failed = true) ∧
    ((GetSnapshotSourceRegistry opts).failed = true →
      (GetRegistryImageInventory d opts mfests).failed = true) ∧
    (opts.ManifestBasedSnapshotOf ≠ "" → (d.ToPromotionEdges mfests).2 ≠ none →
      (GetRegistryImageInventory d opts mfests).failed = true) := by
  refine ⟨?_, ?_, ?_, ?_⟩
  · intro v e trace h
    unfold GetRegistryImageInventory at h
    repeat' split at h
    all_goals first
      | (injection h with h1 h2 h3; first | exact h1.symm | (exact absurd h2 (by simp)))
      | exact absurd h (by simp)
  · intro hsc
    unfold GetRegistryImageInventory
    rcases h : d.MakeSyncContext opts mfests with ⟨sc, _ | e⟩
    · simp [h] at hsc
    · simp [Exec.failed]
  · intro hsrc
    unfold GetRegistryImageInventory
    rcases h : d.MakeSyncContext opts mfests with ⟨sc, _ | e⟩
    · rcases hs : GetSnapshotSourceRegistry opts with ⟨rc, _ | e2, tr⟩ | tr
      · simp [hs, Exec.failed] at hsrc
      · simp [Exec.failed]
      · simp [hs, Exec.failed] at hsrc
    · simp [Exec.failed]
  · intro hmb hedges
    have hlen : opts.ManifestBasedSnapshotOf.utf8ByteSize > 0 :=
      (utf8ByteSize_pos_iff _).2 hmb
    unfold GetRegistryImageInventory
    rcases h : d.MakeSyncContext opts mfests with ⟨sc, _ | e⟩
    · unfold GetSnapshotSourceRegistry
      by_cases h1 : opts.Snapshot = ""
      · simp [h1, hmb, Exec.failed]
      · rcases he : d.ToPromotionEdges mfests with ⟨edges, _ | e2⟩
        · simp [he] at hedges
        · simp [h1, hlen, Exec.failed]
    · simp [Exec.failed]

/-- C10 at three failing runs: the sync context cannot be made (service account
`bad`), the source registry cannot be built (`manifestBasedOpts`), and the edges
cannot be built (a nil manifest list with both source names set). -/
theorem GetRegistryImageInventory_no_partial_inventory_witness :
    (GetRegistryImageInventory demoDeps { demoOpts with SnapshotSvcAcct := "bad" }
        (.mk [demoManifest])).failed = true ∧
    (GetRegistryImageInventory demoDeps manifestBasedOpts (.mk [demoManifest])).failed = true ∧
    (GetRegistryImageInventory demoDeps
        { demoOpts with ManifestBasedSnapshotOf := "gcr.io/foo" } .nil).failed = true ∧
    (∀ (v : RegInvImage) (e : Error) (trace : List Event),
      GetRegistryImageInventory demoDeps
          { demoOpts with ManifestBasedSnapshotOf := "gcr.io/foo" } .nil
        = .returned v (some e) trace → v = .nil) :=
  ⟨(GetRegistryImageInventory_no_partial_inventory demoDeps
      { demoOpts with SnapshotSvcAcct := "bad" } (.mk [demoManifest])).2.1 (by decide),
   (GetRegistryImageInventory_no_partial_inventory demoDeps manifestBasedOpts
      (.mk [demoManifest])).2.2.1 (by decide),
   (GetRegistryImageInventory_no_partial_inventory demoDeps
      { demoOpts with ManifestBasedSnapshotOf := "gcr.io/foo" } .nil).2.2.2
      (by decide) (by decide),
   (GetRegistryImageInventory_no_partial_inventory demoDeps
      { demoOpts with ManifestBasedSnapshotOf := "gcr.io/foo" } .nil).1⟩

/-- The manifest-based path where the code reaches it: when `Snapshot` and
`ManifestBasedSnapshotOf` are both set, `MinimalSnapshot` is false, sync-context
creation returns no error and `ToPromotionEdges` returns the edges `edges`,
`GetRegistryImageInventory` returns `EdgesToRegInvImage edges
ManifestBasedSnapshotOf` and a nil error, and no event of its trace is a
registry read. -/
theorem GetRegistryImageInventory_manifest_based_path_of_snapshot_set {E σ : Type}
    (d : Deps E σ) (opts : Options) (mfests : Slice Manifest)
    (sc : Option (SyncContext σ)) (edges : E)
    (hsnap : opts.Snapshot ≠ "")
    (hmb : opts.ManifestBasedSnapshotOf ≠ "")
    (hmin : opts.MinimalSnapshot = false)
    (hsc : d.MakeSyncContext opts mfests = (sc, none))
    (hedges : d.ToPromotionEdges mfests = (edges, none)) :
    ∃ trace : List Event,
      GetRegistryImageInventory d opts mfests
        = .returned (d.EdgesToRegInvImage edges opts.ManifestBasedSnapshotOf) none trace ∧
      ∀ ev ∈ trace, ev.isRegistryRead = false := by
  have hlen : opts.ManifestBasedSnapshotOf.utf8ByteSize > 0 :=
    (utf8ByteSize_pos_iff _).2 hmb
  refine ⟨[.MakeSyncContext], ?_, ?_⟩
  · unfold GetRegistryImageInventory GetSnapshotSourceRegistry
    simp [hsc, hsnap, hlen, hedges, hmin]
  · intro ev hev
    simp at hev
    subst hev
    rfl

/-- The manifest-based path at options that set both source names: the inventory
is the one derived from the edges of `demoManifest`, with no registry read. -/
theorem GetRegistryImageInventory_manifest_based_path_of_snapshot_set_witness :
    ∃ trace : List Event,
      GetRegistryImageInventory demoDeps
          { manifestBasedOpts with Snapshot := "gcr.io/bar" } (.mk [demoManifest])
        = .returned (.mk [("img", .nil)]) none trace ∧
      ∀ ev ∈ trace, ev.isRegistryRead = false :=
  GetRegistryImageInventory_manifest_based_path_of_snapshot_set demoDeps
    { manifestBasedOpts with Snapshot := "gcr.io/bar" } (.mk [demoManifest])
    (some { Inv := .mk [], rest := () }) ["img"]
    (by decide) (by decide) (by decide) rfl (by decide)

end Promoter
